import Mathlib

/-!
Shallow embedding of the LIS3MDL magnetometer driver (magnetometer.c /
magnetometer.h) over natural numbers.

Register bytes are naturals below 256 (the C code stores them in uint8_t
variables; theorems carry the bound as a hypothesis where it matters).
The i2c bus is modelled by passing each operation the outcome of its bus
transactions: a read outcome is an Option (none = bus failure, some v =
byte(s) delivered), a write outcome is a Bool (true = write succeeded).
Each operation additionally returns the list of bus transactions it
performed, so that "no bus access" and "no write attempted" are provable
statements about the trace.
-/

/-- Status codes of the driver, magnetometer.h lines 34-38. -/
inductive status_mag_t where
  | STATUS_MAG_OK
  | STATUS_MAG_ERROR
  | STATUS_BUS_ERROR
deriving DecidableEq, Repr

/-- Bit extraction macro, magnetometer.h line 40: (data & mask) >> pos. -/
def GET_BIT (data mask pos : Nat) : Nat := (data &&& mask) >>> pos

/-- Bit insertion macro, magnetometer.h line 41: (data << pos) & mask. -/
def SET_BIT (data mask pos : Nat) : Nat := (data <<< pos) &&& mask

/-- Control register 1 address, magnetometer.h line 26. -/
def REG_CTRL_REG_1 : Nat := 0x20

/-- Control register 2 address, magnetometer.h line 27. -/
def REG_CTRL_REG_2 : Nat := 0x21

/-- Device bus address, magnetometer.h line 43. -/
def I2C_BUS_ADDR : Nat := 0x1C

/-- Two-byte transfer length, magnetometer.h line 44. -/
def NUM_OF_BYTES_2 : Nat := 2

/-- One-byte transfer length, magnetometer.h line 45. -/
def NUM_OF_BYTES_1 : Nat := 1

/-- Full-scale field mask (bits 6:5 of CTRL_REG2), magnetometer.h line 48. -/
def REG_CTRL_REG2_BIT_MASK_FS1_FS0 : Nat := 0x60

/-- Full-scale field shift, magnetometer.h line 49. -/
def REG_CTRL_REG2_BIT_POS_FS1_FS0 : Nat := 5

/-- Full-scale range codes, magnetometer.h lines 52-55. -/
def RANGE_4_GAUSS : Nat := 0

/-- Full-scale range code for 8 gauss. -/
def RANGE_8_GAUSS : Nat := 1

/-- Full-scale range code for 12 gauss. -/
def RANGE_12_GAUSS : Nat := 2

/-- Full-scale range code for 16 gauss. -/
def RANGE_16_GAUSS : Nat := 3

/-- Output data rate codes, magnetometer.h lines 59-71. -/
def DATARATE_0_625_Hz : Nat := 0

/-- Rate code 1, 1.25 Hz. -/
def DATARATE_1_25_Hz : Nat := 1

/-- Rate code 2, 2.5 Hz. -/
def DATARATE_2_5_Hz : Nat := 2

/-- Rate code 3, 5 Hz. -/
def DATARATE_5_Hz : Nat := 3

/-- Rate code 4, 10 Hz. -/
def DATARATE_10_Hz : Nat := 4

/-- Rate code 5, 20 Hz. -/
def DATARATE_20_Hz : Nat := 5

/-- Rate code 6, 40 Hz. -/
def DATARATE_40_Hz : Nat := 6

/-- Rate code 7, 80 Hz, top of the normal range. -/
def DATARATE_80_Hz : Nat := 7

/-- Rate code 8, 155 Hz, first fast rate. -/
def DATARATE_155_Hz : Nat := 8

/-- Rate code 9, 300 Hz. -/
def DATARATE_300_Hz : Nat := 9

/-- Rate code 10, 560 Hz. -/
def DATARATE_560_Hz : Nat := 10

/-- Rate code 11, 1000 Hz. -/
def DATARATE_1000_Hz : Nat := 11

/-- Operative mode values, magnetometer.h lines 74-77. -/
def LOW_POWER_MODE : Nat := 0

/-- Medium-performance operative mode. -/
def MEDIUM_PERFORMANCE_MODE : Nat := 1

/-- High-performance operative mode. -/
def HIGH_PERFORMANCE_MODE : Nat := 2

/-- Ultrahigh-performance operative mode. -/
def ULTRAHIGH_PERFORMANCE_MODE : Nat := 3

/-- Rate field mask (bits 4:2 of CTRL_REG1), magnetometer.h line 79. -/
def REG_CTRL_REG1_BIT_MASK_D02_DO1_DO0 : Nat := 0x1C

/-- Rate field shift, magnetometer.h line 80. -/
def REG_CTRL_REG1_BIT_POS_D02_DO1_DO0 : Nat := 2

/-- Operative mode field mask (bits 6:5 of CTRL_REG1), magnetometer.h line 82. -/
def REG_CTRL_REG1_BIT_MASK_OM1_OM0 : Nat := 0x60

/-- Operative mode field shift, magnetometer.h line 83. -/
def REG_CTRL_REG1_BIT_POS_OM1_OM0 : Nat := 5

/-- Fast-ODR flag mask (bit 1 of CTRL_REG1), magnetometer.h line 85. -/
def REG_CTRL_REG1_BIT_MASK_FAST_ORD : Nat := 0x2

/-- Fast-ODR flag shift, magnetometer.h line 86. -/
def REG_CTRL_REG1_BIT_POS_FAST_ORD : Nat := 1

/-- Fast-ODR value written on the fast path, magnetometer.h line 88. -/
def REG_CTRL_REG1_BIT_VAL_FAST_ORD : Nat := 2

/-- Interrupt configuration register address, magnetometer.h line 92. -/
def LIS3MDL_REG_INT_CFG : Nat := 0x30

/-- IEN bit mask (bit 0 of INT_CFG), magnetometer.h line 93. -/
def LIS3MDL_REG_INT_CFG_MASK_IEN : Nat := 0x01

/-- Axis output register addresses, magnetometer.h lines 97-102. -/
def LIS3MDL_OUT_X_L_REG : Nat := 0x28

/-- Y axis low byte register. -/
def LIS3MDL_OUT_Y_L_REG : Nat := 0x2A

/-- Z axis low byte register. -/
def LIS3MDL_OUT_Z_L_REG : Nat := 0x2C

/-- Axis selector values, magnetometer.h lines 105-109. -/
def LIS3MDL_AXIS_X : Nat := 0

/-- Y axis selector. -/
def LIS3MDL_AXIS_Y : Nat := 1

/-- Z axis selector. -/
def LIS3MDL_AXIS_Z : Nat := 2

/-- One bus transaction: an i2c read or an i2c write (single data byte;
every write in this driver transfers one byte). -/
inductive BusOp where
  | read (addr reg len : Nat)
  | write (addr reg len : Nat) (data : Nat)
deriving DecidableEq, Repr

/-- Data bytes of the write transactions of a trace, in order. -/
def writesOf : List BusOp → List Nat
  | [] => []
  | BusOp.read _ _ _ :: rest => writesOf rest
  | BusOp.write _ _ _ d :: rest => d :: writesOf rest

/-- Range check of LIS3MDL_getFullScaleConfig, magnetometer.c line 84:
fullScaleRead < RANGE_4_GAUSS or fullScaleRead > RANGE_16_GAUSS means the
decoded value is rejected with STATUS_MAG_ERROR. -/
def fullScaleRangeCheckFails (v : Nat) : Bool :=
  decide (v < RANGE_4_GAUSS) || decide (RANGE_16_GAUSS < v)

/-- LIS3MDL_getFullScaleConfig, magnetometer.c lines 66-93. pNull models a
NULL pFullScaleRange argument; readResult models the outcome of the i2c
read of CTRL_REG2. Returns (status, value stored through the pointer,
bus trace). -/
def LIS3MDL_getFullScaleConfig (pNull : Bool) (readResult : Option Nat) :
    status_mag_t × Option Nat × List BusOp :=
  if pNull then (.STATUS_MAG_ERROR, none, [])
  else
    match readResult with
    | none =>
        (.STATUS_BUS_ERROR, none,
         [BusOp.read I2C_BUS_ADDR REG_CTRL_REG_2 NUM_OF_BYTES_1])
    | some i2cReadBuffer =>
        let fullScaleRead :=
          GET_BIT i2cReadBuffer REG_CTRL_REG2_BIT_MASK_FS1_FS0
            REG_CTRL_REG2_BIT_POS_FS1_FS0
        if fullScaleRangeCheckFails fullScaleRead then
          (.STATUS_MAG_ERROR, none,
           [BusOp.read I2C_BUS_ADDR REG_CTRL_REG_2 NUM_OF_BYTES_1])
        else
          (.STATUS_MAG_OK, some fullScaleRead,
           [BusOp.read I2C_BUS_ADDR REG_CTRL_REG_2 NUM_OF_BYTES_1])

/-- Encoding step of LIS3MDL_setOutputDataRate, magnetometer.c lines
134-168: the value of i2cWriteBuffer before it is ORed with the byte read
from CTRL_REG1; none when the rate is invalid (the C function then returns
STATUS_MAG_ERROR). The C switch leaves omValue uninitialized in its
default case, but under the guard dataRate is one of 8..11 so that case is
unreachable; it is modelled as 0. The C guard dataRate >= DATARATE_0_625_Hz
is always true for an unsigned argument and is kept as written. -/
def setODR_encode (dataRate : Nat) : Option Nat :=
  if DATARATE_0_625_Hz ≤ dataRate ∧ dataRate ≤ DATARATE_80_Hz then
    some (SET_BIT dataRate REG_CTRL_REG1_BIT_MASK_D02_DO1_DO0
      REG_CTRL_REG1_BIT_POS_D02_DO1_DO0)
  else if DATARATE_80_Hz < dataRate ∧ dataRate ≤ DATARATE_1000_Hz then
    let omValue : Nat :=
      if dataRate = DATARATE_155_Hz then ULTRAHIGH_PERFORMANCE_MODE
      else if dataRate = DATARATE_300_Hz then HIGH_PERFORMANCE_MODE
      else if dataRate = DATARATE_560_Hz then MEDIUM_PERFORMANCE_MODE
      else if dataRate = DATARATE_1000_Hz then LOW_POWER_MODE
      else 0
    some (REG_CTRL_REG1_BIT_VAL_FAST_ORD |||
      SET_BIT omValue REG_CTRL_REG1_BIT_MASK_OM1_OM0
        REG_CTRL_REG1_BIT_POS_OM1_OM0)
  else
    none

/-- LIS3MDL_setOutputDataRate, magnetometer.c lines 122-176. The function
reads CTRL_REG1 first (line 128), then validates and encodes the rate,
ORs the encoding with the byte read (line 171) and writes the result back.
readResult models the outcome of the i2c read, writeOk the outcome of the
i2c write. Returns (status, bus trace). -/
def LIS3MDL_setOutputDataRate (dataRate : Nat) (readResult : Option Nat)
    (writeOk : Bool) : status_mag_t × List BusOp :=
  match readResult with
  | none =>
      (.STATUS_BUS_ERROR,
       [BusOp.read I2C_BUS_ADDR REG_CTRL_REG_1 NUM_OF_BYTES_1])
  | some currentRegValue =>
      match setODR_encode dataRate with
      | none =>
          (.STATUS_MAG_ERROR,
           [BusOp.read I2C_BUS_ADDR REG_CTRL_REG_1 NUM_OF_BYTES_1])
      | some encoded =>
          let i2cWriteBuffer := encoded ||| currentRegValue
          ((if writeOk then .STATUS_MAG_OK else .STATUS_BUS_ERROR),
           [BusOp.read I2C_BUS_ADDR REG_CTRL_REG_1 NUM_OF_BYTES_1,
            BusOp.write I2C_BUS_ADDR REG_CTRL_REG_1 NUM_OF_BYTES_1
              i2cWriteBuffer])

/-- Decoding step of LIS3MDL_getOutputDataRate, magnetometer.c lines
212-238: from the CTRL_REG1 byte to the rate code; none when the operative
mode value is unknown (the C function then returns STATUS_MAG_ERROR). -/
def getODR_decode (regValue : Nat) : Option Nat :=
  let fastOdrValue :=
    GET_BIT regValue REG_CTRL_REG1_BIT_MASK_FAST_ORD
      REG_CTRL_REG1_BIT_POS_FAST_ORD
  if fastOdrValue = 0 then
    some (GET_BIT regValue REG_CTRL_REG1_BIT_MASK_D02_DO1_DO0
      REG_CTRL_REG1_BIT_POS_D02_DO1_DO0)
  else
    let omValue :=
      GET_BIT regValue REG_CTRL_REG1_BIT_MASK_OM1_OM0
        REG_CTRL_REG1_BIT_POS_OM1_OM0
    if omValue = LOW_POWER_MODE then some DATARATE_1000_Hz
    else if omValue = MEDIUM_PERFORMANCE_MODE then some DATARATE_560_Hz
    else if omValue = HIGH_PERFORMANCE_MODE then some DATARATE_300_Hz
    else if omValue = ULTRAHIGH_PERFORMANCE_MODE then some DATARATE_155_Hz
    else none

/-- LIS3MDL_getOutputDataRate, magnetometer.c lines 198-240. pNull models
a NULL dataRate argument; readResult the outcome of the i2c read of
CTRL_REG1. Returns (status, value stored through the pointer, bus trace). -/
def LIS3MDL_getOutputDataRate (pNull : Bool) (readResult : Option Nat) :
    status_mag_t × Option Nat × List BusOp :=
  if pNull then (.STATUS_MAG_ERROR, none, [])
  else
    match readResult with
    | none =>
        (.STATUS_BUS_ERROR, none,
         [BusOp.read I2C_BUS_ADDR REG_CTRL_REG_1 NUM_OF_BYTES_1])
    | some b =>
        match getODR_decode b with
        | some r =>
            (.STATUS_MAG_OK, some r,
             [BusOp.read I2C_BUS_ADDR REG_CTRL_REG_1 NUM_OF_BYTES_1])
        | none =>
            (.STATUS_MAG_ERROR, none,
             [BusOp.read I2C_BUS_ADDR REG_CTRL_REG_1 NUM_OF_BYTES_1])

/-- LIS3MDL_enableDisableIntPin, magnetometer.c lines 265-292. The C guard
is enableDisable > 1 or enableDisable < 0; the second disjunct is always
false for the unsigned argument. On a byte b the C expression
b & ~LIS3MDL_REG_INT_CFG_MASK_IEN equals b &&& (0xFF ^^^ mask). -/
def LIS3MDL_enableDisableIntPin (enableDisable : Nat)
    (readResult : Option Nat) (writeOk : Bool) : status_mag_t × List BusOp :=
  if enableDisable > 1 then (.STATUS_MAG_ERROR, [])
  else
    match readResult with
    | none =>
        (.STATUS_BUS_ERROR,
         [BusOp.read I2C_BUS_ADDR LIS3MDL_REG_INT_CFG NUM_OF_BYTES_1])
    | some i2cReadBuffer =>
        let i2cWriteBuffer :=
          if enableDisable = 1 then
            i2cReadBuffer ||| LIS3MDL_REG_INT_CFG_MASK_IEN
          else
            i2cReadBuffer &&& (0xFF ^^^ LIS3MDL_REG_INT_CFG_MASK_IEN)
        ((if writeOk then .STATUS_MAG_OK else .STATUS_BUS_ERROR),
         [BusOp.read I2C_BUS_ADDR LIS3MDL_REG_INT_CFG NUM_OF_BYTES_1,
          BusOp.write I2C_BUS_ADDR LIS3MDL_REG_INT_CFG NUM_OF_BYTES_1
            i2cWriteBuffer])

/-- LIS3MDL_readAxisData, magnetometer.c lines 321-351. pNull models a
NULL axisData argument; readResult the outcome of the two-byte i2c read as
(buffer[0], buffer[1]). The stored value is (buffer[1] << 8) | buffer[0]
truncated to 16 bits by the uint16_t cast. -/
def LIS3MDL_readAxisData (axisType : Nat) (pNull : Bool)
    (readResult : Option (Nat × Nat)) :
    status_mag_t × Option Nat × List BusOp :=
  if pNull then (.STATUS_MAG_ERROR, none, [])
  else
    let axisRegVal? : Option Nat :=
      if axisType = LIS3MDL_AXIS_X then some LIS3MDL_OUT_X_L_REG
      else if axisType = LIS3MDL_AXIS_Y then some LIS3MDL_OUT_Y_L_REG
      else if axisType = LIS3MDL_AXIS_Z then some LIS3MDL_OUT_Z_L_REG
      else none
    match axisRegVal? with
    | none => (.STATUS_MAG_ERROR, none, [])
    | some axisRegVal =>
        match readResult with
        | none =>
            (.STATUS_BUS_ERROR, none,
             [BusOp.read I2C_BUS_ADDR axisRegVal NUM_OF_BYTES_2])
        | some (b0, b1) =>
            let axisData := ((b1 <<< 8) ||| b0) % 65536
            (.STATUS_MAG_OK, some axisData,
             [BusOp.read I2C_BUS_ADDR axisRegVal NUM_OF_BYTES_2])

/-- Two's-complement reading of a 16-bit value, as the caller interprets
the stored uint16_t (magnetometer.c line 30: the field value is expressed
as two's complement). -/
def toInt16 (n : Nat) : Int :=
  if n < 32768 then (n : Int) else (n : Int) - 65536

/-- An invalid rate (above DATARATE_1000_Hz) falls through both guards of
the encoding step. -/
lemma setODR_encode_none {rate : Nat} (h : 11 < rate) :
    setODR_encode rate = none := by
  have h1 : ¬(DATARATE_0_625_Hz ≤ rate ∧ rate ≤ DATARATE_80_Hz) := by
    simp only [DATARATE_0_625_Hz, DATARATE_80_Hz]
    omega
  have h2 : ¬(DATARATE_80_Hz < rate ∧ rate ≤ DATARATE_1000_Hz) := by
    simp only [DATARATE_80_Hz, DATARATE_1000_Hz]
    omega
  unfold setODR_encode
  rw [if_neg h1, if_neg h2]

/-- A successful encoding comes from a rate below 12 and only ever sets
bits 1 through 6 of the produced byte. -/
lemma setODR_encode_bound {rate enc : Nat} (h : setODR_encode rate = some enc) :
    rate < 12 ∧ enc < 128 ∧ enc &&& 0x7E = enc := by
  have hrate : rate < 12 := by
    rcases Nat.lt_or_ge rate 12 with hlt | hge
    · exact hlt
    · rw [setODR_encode_none (by omega)] at h
      exact Option.noConfusion h
  have key : ∀ r < 12, (setODR_encode r).getD 0 < 128 ∧
      ((setODR_encode r).getD 0 &&& 0x7E = (setODR_encode r).getD 0) := by decide
  have henc : (setODR_encode rate).getD 0 = enc := by rw [h]; rfl
  rcases key rate hrate with ⟨k1, k2⟩
  rw [henc] at k1 k2
  exact ⟨hrate, k1, k2⟩

/-- Bits of a byte vanish above position 7. -/
lemma testBit_byte_high {b i : Nat} (hb : b < 256) (hi : 8 ≤ i) :
    b.testBit i = false := by
  apply Nat.testBit_lt_two_pow
  calc b < 256 := hb
    _ ≤ 2 ^ i := le_trans (by norm_num) (Nat.pow_le_pow_right (by norm_num) hi)

/-- A value whose set bits lie inside mask 0x7E has no bit outside
positions 1 through 6. -/
lemma testBit_outside_mask {e i : Nat} (he : e &&& 0x7E = e)
    (h1 : i ≠ 1) (h2 : i ≠ 2) (h3 : i ≠ 3) (h4 : i ≠ 4) (h5 : i ≠ 5)
    (h6 : i ≠ 6) : e.testBit i = false := by
  rw [← he, Nat.testBit_and]
  have hm : Nat.testBit 0x7E i = false := by
    rcases Nat.lt_or_ge i 8 with hi | hi
    · interval_cases i <;> revert h1 h2 h3 h4 h5 h6 <;> decide
    · exact testBit_byte_high (by norm_num) hi
  rw [hm, Bool.and_false]

/-- Setting bit 0 by an OR with 1 leaves every other bit unchanged. -/
lemma testBit_or_one {w i : Nat} (hi : i ≠ 0) :
    (w ||| 1).testBit i = w.testBit i := by
  rw [Nat.testBit_or]
  have h1 : Nat.testBit 1 i = false :=
    Nat.testBit_lt_two_pow (Nat.one_lt_two_pow hi)
  rw [h1, Bool.or_false]

/-- Clearing bit 0 of a byte by an AND with 0xFE leaves every other bit
unchanged. -/
lemma testBit_and_fe {w i : Nat} (hw : w < 256) (hi : i ≠ 0) :
    (w &&& 0xFE).testBit i = w.testBit i := by
  rw [Nat.testBit_and]
  rcases Nat.lt_or_ge i 8 with h8 | h8
  · have hm : Nat.testBit 0xFE i = true := by
      interval_cases i <;> revert hi <;> decide
    rw [hm, Bool.and_true]
  · rw [testBit_byte_high hw h8, testBit_byte_high (by norm_num) h8,
      Bool.false_and]

/-- C1: for every one of the twelve defined rate codes 0..11, encoding the
rate into a control-register byte by the algorithm of
LIS3MDL_setOutputDataRate and decoding that byte by
LIS3MDL_getOutputDataRate yields the original rate code, both for the pure
encode/decode steps and through the full operations over a register that
previously read 0. -/
theorem C1_setODR_getODR_roundtrip : ∀ rate, rate < 12 →
    (setODR_encode rate).bind getODR_decode = some rate ∧
    (LIS3MDL_getOutputDataRate false (some
      ((writesOf (LIS3MDL_setOutputDataRate rate (some 0) true).2).headD 0))).2.1
      = some rate := by
  decide

/-- Witness for C1 at rate code 9 (300 Hz). -/
theorem C1_setODR_getODR_roundtrip_witness :
    (setODR_encode 9).bind getODR_decode = some 9 ∧
    (LIS3MDL_getOutputDataRate false (some
      ((writesOf (LIS3MDL_setOutputDataRate 9 (some 0) true).2).headD 0))).2.1
      = some 9 :=
  C1_setODR_getODR_roundtrip 9 (by decide)

/-- C2: for every pre-existing control-register-1 byte and every valid
rate code, the byte written back by LIS3MDL_setOutputDataRate agrees with
the pre-existing byte on every bit outside the rate field (bits 4:2), the
fast-ODR flag (bit 1) and the performance-mode field (bits 6:5). -/
theorem C2_setODR_frame : ∀ B rate enc i (wOk : Bool), B < 256 →
    setODR_encode rate = some enc →
    i ≠ 1 → i ≠ 2 → i ≠ 3 → i ≠ 4 → i ≠ 5 → i ≠ 6 →
    writesOf (LIS3MDL_setOutputDataRate rate (some B) wOk).2 = [enc ||| B] ∧
    (enc ||| B).testBit i = B.testBit i := by
  intro B rate enc i wOk hB henc h1 h2 h3 h4 h5 h6
  obtain ⟨hrate, hlt, hmask⟩ := setODR_encode_bound henc
  constructor
  · simp [LIS3MDL_setOutputDataRate, henc, writesOf]
  · rw [Nat.testBit_or, testBit_outside_mask hmask h1 h2 h3 h4 h5 h6,
      Bool.false_or]

/-- Witness for C2 at pre-existing byte 0x81, rate code 3, bit 0. -/
theorem C2_setODR_frame_witness :
    writesOf (LIS3MDL_setOutputDataRate 3 (some 0x81) true).2 = [12 ||| 0x81] ∧
    (12 ||| 0x81).testBit 0 = (0x81 : Nat).testBit 0 :=
  C2_setODR_frame 0x81 3 12 0 true (by decide) (by decide) (by decide)
    (by decide) (by decide) (by decide) (by decide) (by decide)

/-- C9: for every pre-existing control-register-1 byte B and every valid
rate code, the byte written back equals B bitwise-OR the newly encoded
bits, so every bit set in B remains set in the written byte. -/
theorem C9_setODR_never_clears : ∀ B rate enc i (wOk : Bool),
    setODR_encode rate = some enc → B.testBit i = true →
    writesOf (LIS3MDL_setOutputDataRate rate (some B) wOk).2 = [enc ||| B] ∧
    (enc ||| B).testBit i = true := by
  intro B rate enc i wOk henc hbit
  constructor
  · simp [LIS3MDL_setOutputDataRate, henc, writesOf]
  · rw [Nat.testBit_or, hbit, Bool.or_true]

/-- Witness for C9 at pre-existing byte 2 (stale fast-ODR flag), rate code
0, bit 1. -/
theorem C9_setODR_never_clears_witness :
    writesOf (LIS3MDL_setOutputDataRate 0 (some 2) true).2 = [0 ||| 2] ∧
    (0 ||| 2).testBit 1 = true :=
  C9_setODR_never_clears 2 0 0 1 true (by decide) (by decide)

/-- Counterexample to C4 as stated: with pre-existing byte 0x02 (fast-ODR
flag already set) and normal rate code 0, LIS3MDL_setOutputDataRate writes
back the byte 0x02, whose fast-ODR flag (bit 1) is 1, not 0. -/
theorem C4_counterexample :
    (LIS3MDL_setOutputDataRate DATARATE_0_625_Hz (some 0x02) true).1
      = status_mag_t.STATUS_MAG_OK ∧
    writesOf (LIS3MDL_setOutputDataRate DATARATE_0_625_Hz (some 0x02) true).2
      = [0x02] ∧
    GET_BIT 0x02 REG_CTRL_REG1_BIT_MASK_FAST_ORD
      REG_CTRL_REG1_BIT_POS_FAST_ORD = 1 := by
  decide

/-- C4 amended: for every normal-range rate code (0..7) the bits encoded
by LIS3MDL_setOutputDataRate have fast-ODR flag 0, and the written byte's
fast-ODR flag equals the pre-existing byte's flag (hence it is 0 whenever
the pre-existing byte had it clear). -/
theorem C4_normal_rate_fast_flag : ∀ rate B enc (wOk : Bool),
    rate ≤ DATARATE_80_Hz → setODR_encode rate = some enc →
    GET_BIT enc REG_CTRL_REG1_BIT_MASK_FAST_ORD
      REG_CTRL_REG1_BIT_POS_FAST_ORD = 0 ∧
    writesOf (LIS3MDL_setOutputDataRate rate (some B) wOk).2 = [enc ||| B] ∧
    (enc ||| B).testBit 1 = B.testBit 1 := by
  intro rate B enc wOk hrate henc
  have hr8 : rate < 8 := by
    simp only [DATARATE_80_Hz] at hrate
    omega
  have key : ∀ r < 8,
      GET_BIT ((setODR_encode r).getD 0) REG_CTRL_REG1_BIT_MASK_FAST_ORD
        REG_CTRL_REG1_BIT_POS_FAST_ORD = 0 ∧
      Nat.testBit ((setODR_encode r).getD 0) 1 = false := by decide
  have henc2 : (setODR_encode rate).getD 0 = enc := by rw [henc]; rfl
  rcases key rate hr8 with ⟨k1, k2⟩
  rw [henc2] at k1 k2
  refine ⟨k1, ?_, ?_⟩
  · simp [LIS3MDL_setOutputDataRate, henc, writesOf]
  · rw [Nat.testBit_or, k2, Bool.false_or]

/-- Witness for the amended C4 at rate code 5, pre-existing byte 0xA1. -/
theorem C4_normal_rate_fast_flag_witness :
    GET_BIT 20 REG_CTRL_REG1_BIT_MASK_FAST_ORD
      REG_CTRL_REG1_BIT_POS_FAST_ORD = 0 ∧
    writesOf (LIS3MDL_setOutputDataRate 5 (some 0xA1) true).2 = [20 ||| 0xA1] ∧
    (20 ||| 0xA1).testBit 1 = (0xA1 : Nat).testBit 1 :=
  C4_normal_rate_fast_flag 5 0xA1 20 true (by decide) (by decide)

/-- Counterexample to C3 as stated: the invalid rate code 15 makes
LIS3MDL_setOutputDataRate return STATUS_MAG_ERROR only after performing
one bus read of CTRL_REG1, so the bus access count is not zero. -/
theorem C3_counterexample :
    LIS3MDL_setOutputDataRate 15 (some 0) true =
      (status_mag_t.STATUS_MAG_ERROR,
       [BusOp.read I2C_BUS_ADDR REG_CTRL_REG_1 NUM_OF_BYTES_1]) ∧
    (LIS3MDL_setOutputDataRate 15 (some 0) true).2 ≠ [] := by
  decide

/-- C3 amended: every operation except LIS3MDL_setOutputDataRate rejects
an invalid input (null output pointer, enable flag above 1, axis selector
above 2) with STATUS_MAG_ERROR before any bus access;
LIS3MDL_setOutputDataRate performs its initial read of CTRL_REG1 before
validating the rate, so an invalid rate code yields STATUS_MAG_ERROR after
exactly that one read, with no write attempted. -/
theorem C3_validation_before_io :
    (∀ rd : Option Nat,
      LIS3MDL_getFullScaleConfig true rd = (.STATUS_MAG_ERROR, none, [])) ∧
    (∀ rd : Option Nat,
      LIS3MDL_getOutputDataRate true rd = (.STATUS_MAG_ERROR, none, [])) ∧
    (∀ ax (rd : Option (Nat × Nat)),
      LIS3MDL_readAxisData ax true rd = (.STATUS_MAG_ERROR, none, [])) ∧
    (∀ ax (rd : Option (Nat × Nat)), 2 < ax →
      LIS3MDL_readAxisData ax false rd = (.STATUS_MAG_ERROR, none, [])) ∧
    (∀ e (rd : Option Nat) (wOk : Bool), 1 < e →
      LIS3MDL_enableDisableIntPin e rd wOk = (.STATUS_MAG_ERROR, [])) ∧
    (∀ rate B (wOk : Bool), 11 < rate →
      LIS3MDL_setOutputDataRate rate (some B) wOk =
        (.STATUS_MAG_ERROR,
         [BusOp.read I2C_BUS_ADDR REG_CTRL_REG_1 NUM_OF_BYTES_1]) ∧
      writesOf (LIS3MDL_setOutputDataRate rate (some B) wOk).2 = []) := by
  refine ⟨fun rd => rfl, fun rd => rfl, fun ax rd => rfl, ?_, ?_, ?_⟩
  · intro ax rd hax
    have h0 : ¬(ax = LIS3MDL_AXIS_X) := by
      simp only [LIS3MDL_AXIS_X]; omega
    have h1 : ¬(ax = LIS3MDL_AXIS_Y) := by
      simp only [LIS3MDL_AXIS_Y]; omega
    have h2 : ¬(ax = LIS3MDL_AXIS_Z) := by
      simp only [LIS3MDL_AXIS_Z]; omega
    simp [LIS3MDL_readAxisData, h0, h1, h2]
  · intro e rd wOk he
    simp [LIS3MDL_enableDisableIntPin, he]
  · intro rate B wOk hrate
    have henc : setODR_encode rate = none := setODR_encode_none hrate
    constructor
    · simp [LIS3MDL_setOutputDataRate, henc]
    · simp [LIS3MDL_setOutputDataRate, henc, writesOf]

/-- Witness for the amended C3: axis selector 3, enable flag 2, rate 12. -/
theorem C3_validation_before_io_witness :
    LIS3MDL_readAxisData 3 false (some (0, 0)) = (.STATUS_MAG_ERROR, none, []) ∧
    LIS3MDL_enableDisableIntPin 2 (some 0) true = (.STATUS_MAG_ERROR, []) ∧
    (LIS3MDL_setOutputDataRate 12 (some 0) true =
      (.STATUS_MAG_ERROR,
       [BusOp.read I2C_BUS_ADDR REG_CTRL_REG_1 NUM_OF_BYTES_1]) ∧
     writesOf (LIS3MDL_setOutputDataRate 12 (some 0) true).2 = []) :=
  ⟨C3_validation_before_io.2.2.2.1 3 (some (0, 0)) (by decide),
   C3_validation_before_io.2.2.2.2.1 2 (some 0) true (by decide),
   C3_validation_before_io.2.2.2.2.2 12 0 true (by decide)⟩

/-- C5: LIS3MDL_readAxisData assembles its 16-bit result as
(highByte << 8) | lowByte for every axis selector and byte pair, stores
0x1234 for bytes [0x34, 0x12] on axis X (4660 as two's complement),
stores 0xFFFF for bytes [0xFF, 0xFF] (-1 as two's complement), and
rejects selector 3 with STATUS_MAG_ERROR and zero bus accesses. -/
theorem C5_readAxisData_assembly :
    (∀ ax b0 b1, ax < 3 → b0 < 256 → b1 < 256 →
      (LIS3MDL_readAxisData ax false (some (b0, b1))).1 = .STATUS_MAG_OK ∧
      (LIS3MDL_readAxisData ax false (some (b0, b1))).2.1
        = some ((b1 <<< 8) ||| b0)) ∧
    LIS3MDL_readAxisData LIS3MDL_AXIS_X false (some (0x34, 0x12)) =
      (.STATUS_MAG_OK, some 0x1234,
       [BusOp.read I2C_BUS_ADDR LIS3MDL_OUT_X_L_REG NUM_OF_BYTES_2]) ∧
    (0x1234 : Nat) = 4660 ∧ toInt16 0x1234 = 4660 ∧
    (LIS3MDL_readAxisData LIS3MDL_AXIS_X false (some (0xFF, 0xFF))).2.1
      = some 0xFFFF ∧
    toInt16 0xFFFF = -1 ∧
    LIS3MDL_readAxisData 3 false (some (0, 0)) =
      (.STATUS_MAG_ERROR, none, []) := by
  refine ⟨?_, by decide, by decide, by decide, by decide, by decide, by decide⟩
  intro ax b0 b1 hax hb0 hb1
  have l : b1 <<< 8 < 2 ^ 16 := by
    rw [Nat.shiftLeft_eq]
    norm_num
    omega
  have r : b0 < 2 ^ 16 := by
    norm_num
    omega
  have hor : (b1 <<< 8) ||| b0 < 65536 := by
    have h := Nat.or_lt_two_pow l r
    norm_num at h
    exact h
  interval_cases ax <;>
    simp [LIS3MDL_readAxisData, LIS3MDL_AXIS_X, LIS3MDL_AXIS_Y,
      LIS3MDL_AXIS_Z, Nat.mod_eq_of_lt hor]

/-- Witness for C5 at axis Y, bytes (1, 2). -/
theorem C5_readAxisData_assembly_witness :
    (LIS3MDL_readAxisData 1 false (some (1, 2))).1 = .STATUS_MAG_OK ∧
    (LIS3MDL_readAxisData 1 false (some (1, 2))).2.1
      = some ((2 <<< 8) ||| 1) :=
  C5_readAxisData_assembly.1 1 1 2 (by decide) (by decide) (by decide)

/-- C6: for every pre-existing interrupt-config byte B and every valid
input, LIS3MDL_enableDisableIntPin sets (input 1) or clears (input 0)
exactly the IEN bit (bit 0) of the byte it writes back, and every other
bit is preserved: the enable call on B writes w1 with bit 0 set, the
disable call on the same arbitrary B (IEN set or clear) writes w0 with
bit 0 clear, and the disable call chained after the enable call writes w2
with bit 0 clear; every bit other than bit 0 of w1, w0 and w2 equals the
corresponding bit of B. -/
theorem C6_intPin_frame : ∀ B w1 w0 w2 i, B < 256 → i ≠ 0 →
    writesOf (LIS3MDL_enableDisableIntPin 1 (some B) true).2 = [w1] →
    writesOf (LIS3MDL_enableDisableIntPin 0 (some B) true).2 = [w0] →
    writesOf (LIS3MDL_enableDisableIntPin 0 (some w1) true).2 = [w2] →
    w1.testBit 0 = true ∧ w0.testBit 0 = false ∧ w2.testBit 0 = false ∧
    w1.testBit i = B.testBit i ∧ w0.testBit i = B.testBit i ∧
    w2.testBit i = B.testBit i := by
  intro B w1 w0 w2 i hB hi h1 h0 h2
  have hxor : (0xFF ^^^ LIS3MDL_REG_INT_CFG_MASK_IEN : Nat) = 0xFE := by
    decide
  simp [LIS3MDL_enableDisableIntPin, writesOf,
    LIS3MDL_REG_INT_CFG_MASK_IEN] at h1
  simp [LIS3MDL_enableDisableIntPin, writesOf, hxor] at h0
  simp [LIS3MDL_enableDisableIntPin, writesOf, hxor] at h2
  have e1 : w1 = B ||| 1 := h1.symm
  have e0 : w0 = B &&& 0xFE := h0.symm
  have e2 : w2 = w1 &&& 0xFE := h2.symm
  have hw1 : w1 < 256 := by
    rw [e1]
    have h := Nat.or_lt_two_pow (x := B) (y := 1) (n := 8)
      (by norm_num; omega) (by norm_num)
    norm_num at h
    exact h
  refine ⟨?_, ?_, ?_, ?_, ?_, ?_⟩
  · rw [e1, Nat.testBit_or, show Nat.testBit 1 0 = true by decide,
      Bool.or_true]
  · rw [e0, Nat.testBit_and, show Nat.testBit 0xFE 0 = false by decide,
      Bool.and_false]
  · rw [e2, Nat.testBit_and, show Nat.testBit 0xFE 0 = false by decide,
      Bool.and_false]
  · rw [e1, testBit_or_one hi]
  · rw [e0, testBit_and_fe hB hi]
  · rw [e2, testBit_and_fe hw1 hi, e1, testBit_or_one hi]

/-- Witness for C6 at pre-existing byte 0xAA (IEN clear), bit 5: the
enable call writes 0xAB, the disable call on 0xAA itself writes 0xAA, and
the disable call chained after the enable call writes 0xAA back. -/
theorem C6_intPin_frame_witness :
    (0xAB : Nat).testBit 0 = true ∧ (0xAA : Nat).testBit 0 = false ∧
    (0xAA : Nat).testBit 0 = false ∧
    (0xAB : Nat).testBit 5 = (0xAA : Nat).testBit 5 ∧
    (0xAA : Nat).testBit 5 = (0xAA : Nat).testBit 5 ∧
    (0xAA : Nat).testBit 5 = (0xAA : Nat).testBit 5 :=
  C6_intPin_frame 0xAA 0xAB 0xAA 0xAA 5 (by decide) (by decide) (by decide)
    (by decide) (by decide)

set_option maxRecDepth 4000 in
/-- C7: for every control-register-2 byte, the 2-bit code extracted at
bits 6:5 is at most 3 and LIS3MDL_getFullScaleConfig returns STATUS_MAG_OK
storing exactly that code; the defensive range check rejects every value
greater than 3. -/
theorem C7_getFullScale_codes :
    (∀ b, b < 256 →
      GET_BIT b REG_CTRL_REG2_BIT_MASK_FS1_FS0
        REG_CTRL_REG2_BIT_POS_FS1_FS0 ≤ 3 ∧
      LIS3MDL_getFullScaleConfig false (some b) =
        (.STATUS_MAG_OK,
         some (GET_BIT b REG_CTRL_REG2_BIT_MASK_FS1_FS0
           REG_CTRL_REG2_BIT_POS_FS1_FS0),
         [BusOp.read I2C_BUS_ADDR REG_CTRL_REG_2 NUM_OF_BYTES_1])) ∧
    (∀ v, 3 < v → fullScaleRangeCheckFails v = true) := by
  constructor
  · decide
  · intro v hv
    simp only [fullScaleRangeCheckFails, RANGE_4_GAUSS, RANGE_16_GAUSS]
    simp [hv]

/-- Witness for C7 at register byte 0x45 (code 2) and corrupted value 7. -/
theorem C7_getFullScale_codes_witness :
    (GET_BIT 0x45 REG_CTRL_REG2_BIT_MASK_FS1_FS0
        REG_CTRL_REG2_BIT_POS_FS1_FS0 ≤ 3 ∧
      LIS3MDL_getFullScaleConfig false (some 0x45) =
        (.STATUS_MAG_OK,
         some (GET_BIT 0x45 REG_CTRL_REG2_BIT_MASK_FS1_FS0
           REG_CTRL_REG2_BIT_POS_FS1_FS0),
         [BusOp.read I2C_BUS_ADDR REG_CTRL_REG_2 NUM_OF_BYTES_1])) ∧
    fullScaleRangeCheckFails 7 = true :=
  ⟨C7_getFullScale_codes.1 0x45 (by decide),
   C7_getFullScale_codes.2 7 (by decide)⟩

/-- C8: a failing bus read surfaces as STATUS_BUS_ERROR from every one of
the five operations with no write attempted, and a failing bus write in a
read-modify-write sequence also surfaces as STATUS_BUS_ERROR. -/
theorem C8_bus_failure :
    LIS3MDL_getFullScaleConfig false none =
      (.STATUS_BUS_ERROR, none,
       [BusOp.read I2C_BUS_ADDR REG_CTRL_REG_2 NUM_OF_BYTES_1]) ∧
    LIS3MDL_getOutputDataRate false none =
      (.STATUS_BUS_ERROR, none,
       [BusOp.read I2C_BUS_ADDR REG_CTRL_REG_1 NUM_OF_BYTES_1]) ∧
    (∀ rate (wOk : Bool), LIS3MDL_setOutputDataRate rate none wOk =
      (.STATUS_BUS_ERROR,
       [BusOp.read I2C_BUS_ADDR REG_CTRL_REG_1 NUM_OF_BYTES_1])) ∧
    (∀ rate B enc, setODR_encode rate = some enc →
      (LIS3MDL_setOutputDataRate rate (some B) false).1
        = .STATUS_BUS_ERROR) ∧
    (∀ e (wOk : Bool), e ≤ 1 → LIS3MDL_enableDisableIntPin e none wOk =
      (.STATUS_BUS_ERROR,
       [BusOp.read I2C_BUS_ADDR LIS3MDL_REG_INT_CFG NUM_OF_BYTES_1])) ∧
    (∀ e B, e ≤ 1 →
      (LIS3MDL_enableDisableIntPin e (some B) false).1
        = .STATUS_BUS_ERROR) ∧
    (∀ ax, ax < 3 →
      (LIS3MDL_readAxisData ax false none).1 = .STATUS_BUS_ERROR ∧
      writesOf (LIS3MDL_readAxisData ax false none).2.2 = []) := by
  refine ⟨rfl, rfl, fun rate wOk => rfl, ?_, ?_, ?_, ?_⟩
  · intro rate B enc henc
    simp [LIS3MDL_setOutputDataRate, henc]
  · intro e wOk he
    simp [LIS3MDL_enableDisableIntPin, show ¬(1 < e) by omega]
  · intro e B he
    simp [LIS3MDL_enableDisableIntPin, show ¬(1 < e) by omega]
  · intro ax hax
    interval_cases ax <;> exact ⟨by decide, by decide⟩

/-- Witness for C8: write failure at rate 3 over byte 7, read failure for
the interrupt pin and for axis Z. -/
theorem C8_bus_failure_witness :
    (LIS3MDL_setOutputDataRate 3 (some 7) false).1 = .STATUS_BUS_ERROR ∧
    LIS3MDL_enableDisableIntPin 1 none true =
      (.STATUS_BUS_ERROR,
       [BusOp.read I2C_BUS_ADDR LIS3MDL_REG_INT_CFG NUM_OF_BYTES_1]) ∧
    (LIS3MDL_enableDisableIntPin 0 (some 5) false).1 = .STATUS_BUS_ERROR ∧
    ((LIS3MDL_readAxisData 2 false none).1 = .STATUS_BUS_ERROR ∧
      writesOf (LIS3MDL_readAxisData 2 false none).2.2 = []) :=
  ⟨C8_bus_failure.2.2.2.1 3 7 12 (by decide),
   C8_bus_failure.2.2.2.2.1 1 true (by decide),
   C8_bus_failure.2.2.2.2.2.1 0 5 (by decide),
   C8_bus_failure.2.2.2.2.2.2 2 (by decide)⟩

set_option maxRecDepth 4000 in
/-- C10: for every control-register-1 byte with the fast-ODR flag set,
LIS3MDL_getOutputDataRate returns STATUS_MAG_OK storing one of the four
fast rate codes 8..11; its unknown-operative-mode error branch is
unreachable. -/
theorem C10_fast_flag_fast_rate : ∀ b, b < 256 →
    GET_BIT b REG_CTRL_REG1_BIT_MASK_FAST_ORD
      REG_CTRL_REG1_BIT_POS_FAST_ORD ≠ 0 →
    (LIS3MDL_getOutputDataRate false (some b)).1 = .STATUS_MAG_OK ∧
    ((LIS3MDL_getOutputDataRate false (some b)).2.1).isSome = true ∧
    8 ≤ ((LIS3MDL_getOutputDataRate false (some b)).2.1).getD 0 ∧
    ((LIS3MDL_getOutputDataRate false (some b)).2.1).getD 0 ≤ 11 := by
  decide

/-- Witness for C10 at register byte 2 (fast flag set, mode 0, decoded as
rate 11). -/
theorem C10_fast_flag_fast_rate_witness :
    (LIS3MDL_getOutputDataRate false (some 2)).1 = .STATUS_MAG_OK ∧
    ((LIS3MDL_getOutputDataRate false (some 2)).2.1).isSome = true ∧
    8 ≤ ((LIS3MDL_getOutputDataRate false (some 2)).2.1).getD 0 ∧
    ((LIS3MDL_getOutputDataRate false (some 2)).2.1).getD 0 ≤ 11 :=
  C10_fast_flag_fast_rate 2 (by decide) (by decide)
